import Mathlib

/-!
Verification of the LeftSTAMPi anomaly detector
(src/aeon/anomaly_detection/_left_stampi.py).

The adapter class is embedded shallowly:

* Python ints become ℤ (parameters) and ℕ (lengths/indices); the time
  series is a `List ℚ`.
* The external matrix-profile engine (`stumpy.stumpi`) is third-party code
  outside this repository.  It is modelled from the spec as an opaque
  incremental structure holding, per subsequence position, the distance to
  its nearest left neighbor seen so far; the distance function and the
  value used for the position with no left neighbor (numpy inf) are
  parameters (`DistModel`), so every theorem holds for an arbitrary
  engine of that shape.
* `reverse_windowing` lives in aeon.utils.windowing, which is part of the
  repository but not under src/; it is modelled from the spec.
* Raising is modelled by returning the error alongside the
  post-call attribute state (Python leaves attribute mutations made
  before a raise in place, which matters for `_fit`).
* The base-class wrappers (fit/predict/fit_predict around _fit/_predict/
  _fit_predict) only convert/validate the input shape for 1-D input and
  are treated as the identity; the methods are modelled directly.
-/

namespace LeftStampi

/-- Python exception classes distinguished by the spec claims. -/
inductive PyError where
  | valueError : PyError
  | typeError : PyError
deriving DecidableEq, Repr

instance : DecidableEq (Except PyError (List ℚ)) := fun a b =>
  match a, b with
  | .error e1, .error e2 => decidable_of_iff (e1 = e2) (by simp)
  | .error _, .ok _ => isFalse (by simp)
  | .ok _, .error _ => isFalse (by simp)
  | .ok s1, .ok s2 => decidable_of_iff (s1 = s2) (by simp)

/-- Modelled from the spec: the external engine's distance notion.
`dist` is the subsequence distance used by stumpy (z-normalized or p-norm
distance; opaque here), `inf` is the value the engine reports for a
subsequence with no left neighbor (numpy inf). -/
structure DistModel where
  dist : List ℚ → List ℚ → ℚ
  inf : ℚ

/-- Modelled from the spec: the opaque incremental matrix-profile state
owned by stumpy (`self.mp`): the series consumed so far and the
subsequence length `m`. -/
structure MPState where
  series : List ℚ
  m : ℕ
deriving DecidableEq, Repr

/-- The subsequence (window) of `X` of length `m` starting at `i`. -/
def window (X : List ℚ) (m i : ℕ) : List ℚ :=
  (X.drop i).take m

/-- Modelled from the spec: the left matrix-profile entry for subsequence
`j`: the distance to the nearest subsequence strictly to its left, `inf`
when there is none (j = 0). -/
def leftNN (D : DistModel) (X : List ℚ) (m : ℕ) : ℕ → ℚ
  | 0 => D.inf
  | j + 1 =>
      ((List.range (j + 1)).map
        (fun i => D.dist (window X m i) (window X m (j + 1)))).foldl
        min (D.dist (window X m 0) (window X m (j + 1)))

/-- Modelled from the spec: the engine's left matrix profile
(`self.mp._left_P`), one entry per subsequence position. -/
def MPState.leftP (D : DistModel) (st : MPState) : List ℚ :=
  (List.range (st.series.length + 1 - st.m)).map (leftNN D st.series st.m)

/-- Modelled from the spec: the engine's one-point update
(`self.mp.update(x)`): the new observation is appended to the consumed
series. -/
def MPState.update (st : MPState) (x : ℚ) : MPState :=
  ⟨st.series ++ [x], st.m⟩

/-- The index bound denoted by the Python slice `a[:t]` on an array of
length `len`: `len` for `None`, `max (len + t) 0` for negative `t`,
`min t len` otherwise. -/
def pySlice : Option ℤ → ℕ → ℕ
  | none, len => len
  | some t, len => if t < 0 then min ((len + t).toNat) len else min t.toNat len

/-- The in-place assignment `lmp[:t] = 0`: the first `t` entries are
replaced by 0, the rest kept. -/
def zeroUpTo (y : List ℚ) (t : ℕ) : List ℚ :=
  (List.range y.length).map (fun j => if j < t then 0 else y.getD j 0)

/-- The indices of the windows (out of `len` windows of width `w`) that
cover time point `i`. -/
def covering (len w i : ℕ) : List ℕ :=
  (List.range len).filter (fun j => decide (j ≤ i ∧ i < j + w))

/-- Modelled from the spec: `reverse_windowing` from aeon.utils.windowing
(repository code not under src/).  Window-aligned scores are turned into
point-aligned scores: each time point receives the mean of the scores of
the windows covering it; the output has one entry per time point,
i.e. length `len(y) + window_size - 1`. -/
def reverse_windowing (y : List ℚ) (w : ℕ) : List ℚ :=
  (List.range (y.length + w - 1)).map (fun i =>
    ((covering y.length w i).map (fun j => y.getD j 0)).sum /
      (((covering y.length w i).length : ℕ) : ℚ))

/-- The shared post-processing of `_predict` and `_fit_predict`
(lines 149-151 and 166-169): read `self.mp._left_P`, zero its first
`n_init_train` entries, and reverse-window with `self.window_size`. -/
def scoresFrom (D : DistModel) (n_init_train : Option ℤ) (window_size : ℤ)
    (st : MPState) : List ℚ :=
  reverse_windowing
    (zeroUpTo (st.leftP D) (pySlice n_init_train (st.leftP D).length))
    window_size.toNat

/-- The detector's attribute state (`LeftSTAMPi.__init__`). -/
structure LeftSTAMPi where
  window_size : ℤ
  n_init_train : Option ℤ
  normalize : Bool
  p : ℚ
  k : ℤ
  mp : Option MPState

/-- `LeftSTAMPi._check_params`: window-size bounds against the series
length, window size against `n_init_train` (a comparison with `None`
raises `TypeError` in Python 3), and the top-k bound against series
length minus window size. -/
def checkParams (det : LeftSTAMPi) (n : ℕ) : Except PyError Unit :=
  if det.window_size < 3 ∨ det.window_size > (n : ℤ) then
    .error .valueError
  else
    match det.n_init_train with
    | none => .error .typeError
    | some t =>
        if det.window_size > t then
          .error .valueError
        else if det.k < 1 ∨ det.k > (n : ℤ) - det.window_size then
          .error .valueError
        else
          .ok ()

/-- `LeftSTAMPi._fit`: sets `self.n_init_train = len(X)`, then validates,
then builds the stumpy state over `X` (`_call_stumpi`).  The attribute
state after the call is returned even when an error is raised, because
Python keeps the `n_init_train` assignment made before the raise. -/
def LeftSTAMPi.fit (det : LeftSTAMPi) (X : List ℚ) : LeftSTAMPi × Option PyError :=
  match checkParams { det with n_init_train := some (X.length : ℤ) } X.length with
  | .error e => ({ det with n_init_train := some (X.length : ℤ) }, some e)
  | .ok _ =>
      ({ det with
          n_init_train := some (X.length : ℤ),
          mp := some ⟨X, det.window_size.toNat⟩ }, none)

/-- `LeftSTAMPi._predict` in stream mode (one new point per call, the
protocol of the class docstring): update the engine with the point, then
post-process the left profile.  Calling predict before fit dereferences
`None` in Python (AttributeError); that unreachable case returns the
state unchanged with an empty score list. -/
def LeftSTAMPi.predict (D : DistModel) (det : LeftSTAMPi) (x : ℚ) :
    LeftSTAMPi × List ℚ :=
  match det.mp with
  | none => (det, [])
  | some st =>
      let stN := st.update x
      ({ det with mp := some stN },
        scoresFrom D det.n_init_train det.window_size stN)

/-- `LeftSTAMPi._fit_predict`: validate, build the stumpy state over
`X[:n_init_train]`, update once per point of `X[n_init_train:]`, then
post-process the left profile. -/
def LeftSTAMPi.fitPredict (D : DistModel) (det : LeftSTAMPi) (X : List ℚ) :
    LeftSTAMPi × Except PyError (List ℚ) :=
  match checkParams det X.length with
  | .error e => (det, .error e)
  | .ok _ =>
      let tt := pySlice det.n_init_train X.length
      let st0 : MPState := ⟨X.take tt, det.window_size.toNat⟩
      let stF := (X.drop tt).foldl MPState.update st0
      ({ det with mp := some stF },
        .ok (scoresFrom D det.n_init_train det.window_size stF))

/-- Stream-mode processing after fit: one `predict` call per point, in
order; the second component is the score array returned by the last
call (empty when there is no call). -/
def streamRun (D : DistModel) (det : LeftSTAMPi) (pts : List ℚ) :
    LeftSTAMPi × List ℚ :=
  pts.foldl (fun acc x => LeftSTAMPi.predict D acc.1 x) (det, [])

/-! ### Concrete instances used by witnesses and counterexamples -/

/-- A trivial engine model: all distances are 0, `inf` is 7. -/
def Dz : DistModel := ⟨fun _ _ => 0, 7⟩

/-- An engine model with the L1 subsequence distance. -/
def Dabs : DistModel :=
  ⟨fun a b => ((a.zip b).map (fun q => |q.1 - q.2|)).sum, 1000⟩

/-- A concrete test series of length 10. -/
def X0 : List ℚ := [5, 1, 4, 2, 8, 3, 9, 0, 6, 7]

/-! ### Helper lemmas about the parameter check and the call plumbing -/

theorem checkParams_invalid_w (det : LeftSTAMPi) (n : ℕ)
    (h : det.window_size < 3 ∨ det.window_size > (n : ℤ)) :
    checkParams det n = .error .valueError := by
  unfold checkParams
  rw [if_pos h]

theorem checkParams_none (det : LeftSTAMPi) (n : ℕ)
    (hn : det.n_init_train = none)
    (h3 : 3 ≤ det.window_size) (hle : det.window_size ≤ (n : ℤ)) :
    checkParams det n = .error .typeError := by
  unfold checkParams
  rw [if_neg (by omega), hn]

theorem checkParams_w_gt_t (det : LeftSTAMPi) (n : ℕ) (t : ℤ)
    (hn : det.n_init_train = some t)
    (h3 : 3 ≤ det.window_size) (hle : det.window_size ≤ (n : ℤ))
    (hgt : t < det.window_size) :
    checkParams det n = .error .valueError := by
  unfold checkParams
  rw [if_neg (by omega), hn]
  show (if det.window_size > t then Except.error PyError.valueError
    else if det.k < 1 ∨ det.k > (n : ℤ) - det.window_size then
      Except.error PyError.valueError else Except.ok ()) = _
  rw [if_pos hgt]

theorem checkParams_valid_wt (det : LeftSTAMPi) (n : ℕ) (t : ℤ)
    (hn : det.n_init_train = some t)
    (h3 : 3 ≤ det.window_size) (hle : det.window_size ≤ (n : ℤ))
    (hwt : det.window_size ≤ t) :
    checkParams det n =
      if det.k < 1 ∨ det.k > (n : ℤ) - det.window_size then
        .error .valueError
      else .ok () := by
  unfold checkParams
  rw [if_neg (by omega), hn]
  show (if det.window_size > t then Except.error PyError.valueError
    else if det.k < 1 ∨ det.k > (n : ℤ) - det.window_size then
      Except.error PyError.valueError else Except.ok ()) = _
  rw [if_neg (by omega)]

theorem checkParams_ok_bounds (det : LeftSTAMPi) (n : ℕ)
    (h : checkParams det n = .ok ()) :
    3 ≤ det.window_size ∧ det.window_size ≤ (n : ℤ) ∧
      ∃ t, det.n_init_train = some t ∧ det.window_size ≤ t ∧
        1 ≤ det.k ∧ det.k ≤ (n : ℤ) - det.window_size := by
  by_cases h1 : det.window_size < 3 ∨ det.window_size > (n : ℤ)
  · rw [checkParams_invalid_w det n h1] at h
    exact absurd h (by simp)
  · cases hn : det.n_init_train with
    | none =>
        rw [checkParams_none det n hn (by omega) (by omega)] at h
        exact absurd h (by simp)
    | some t =>
        by_cases h2 : t < det.window_size
        · rw [checkParams_w_gt_t det n t hn (by omega) (by omega) h2] at h
          exact absurd h (by simp)
        · rw [checkParams_valid_wt det n t hn (by omega) (by omega)
            (by omega)] at h
          by_cases h3 : det.k < 1 ∨ det.k > (n : ℤ) - det.window_size
          · rw [if_pos h3] at h
            exact absurd h (by simp)
          · exact ⟨by omega, by omega, t, rfl, by omega, by omega, by omega⟩

theorem checkParams_ok (det : LeftSTAMPi) (n : ℕ) (t : ℤ)
    (hn : det.n_init_train = some t)
    (h3 : 3 ≤ det.window_size) (hle : det.window_size ≤ (n : ℤ))
    (hwt : det.window_size ≤ t) (hk1 : 1 ≤ det.k)
    (hk2 : det.k ≤ (n : ℤ) - det.window_size) :
    checkParams det n = .ok () := by
  rw [checkParams_valid_wt det n t hn h3 hle hwt, if_neg (by omega)]

theorem fit_snd_some_iff (det : LeftSTAMPi) (X : List ℚ) (e : PyError) :
    (det.fit X).2 = some e ↔
      checkParams { det with n_init_train := some (X.length : ℤ) } X.length
        = .error e := by
  unfold LeftSTAMPi.fit
  cases h : checkParams { det with n_init_train := some (X.length : ℤ) }
      X.length with
  | error e2 => simp
  | ok u => cases u; simp

theorem fit_of_error (det : LeftSTAMPi) (X : List ℚ) (e : PyError)
    (h : checkParams { det with n_init_train := some (X.length : ℤ) } X.length
      = .error e) :
    det.fit X = ({ det with n_init_train := some (X.length : ℤ) }, some e) := by
  unfold LeftSTAMPi.fit
  rw [h]

theorem fit_of_ok (det : LeftSTAMPi) (X : List ℚ)
    (h : checkParams { det with n_init_train := some (X.length : ℤ) } X.length
      = .ok ()) :
    det.fit X = ({ det with
      n_init_train := some (X.length : ℤ),
      mp := some ⟨X, det.window_size.toNat⟩ }, none) := by
  unfold LeftSTAMPi.fit
  rw [h]

theorem fitPredict_snd_error_iff (D : DistModel) (det : LeftSTAMPi)
    (X : List ℚ) (e : PyError) :
    (det.fitPredict D X).2 = .error e ↔
      checkParams det X.length = .error e := by
  unfold LeftSTAMPi.fitPredict
  cases h : checkParams det X.length with
  | error e2 => simp
  | ok u => cases u; simp

theorem fitPredict_of_error (D : DistModel) (det : LeftSTAMPi) (X : List ℚ)
    (e : PyError) (h : checkParams det X.length = .error e) :
    det.fitPredict D X = (det, .error e) := by
  unfold LeftSTAMPi.fitPredict
  rw [h]

/-! ### C4, C5, C6, C10: validation behaviour -/

/-- C4: for every series X and every window_size with window_size < 3 or
window_size > len(X), both fit and fit_predict raise a ValueError
(whatever n_init_train and k are). -/
theorem c4_invalid_window_raises (D : DistModel) (det : LeftSTAMPi)
    (X : List ℚ)
    (h : det.window_size < 3 ∨ det.window_size > (X.length : ℤ)) :
    (det.fit X).2 = some PyError.valueError ∧
      (det.fitPredict D X).2 = Except.error PyError.valueError := by
  constructor
  · exact (fit_snd_some_iff det X _).mpr (checkParams_invalid_w _ _ h)
  · exact (fitPredict_snd_error_iff D det X _).mpr
      (checkParams_invalid_w _ _ h)

/-- Witness for C4 at window_size = 2, X of length 3. -/
theorem c4_witness :
    ((2 : ℤ) < 3 ∨ (2 : ℤ) > ((3 : ℕ) : ℤ)) ∧
      ((LeftSTAMPi.fit ⟨2, some 3, true, 2, 1, none⟩ [1, 2, 3]).2
          = some PyError.valueError ∧
        (LeftSTAMPi.fitPredict Dz ⟨2, some 3, true, 2, 1, none⟩
            [1, 2, 3]).2 = Except.error PyError.valueError) :=
  ⟨by decide,
    c4_invalid_window_raises Dz ⟨2, some 3, true, 2, 1, none⟩ [1, 2, 3]
      (by decide)⟩

/-- C5: with a valid window size (and, for fit_predict, a valid
n_init_train), fit and fit_predict raise a validation error exactly when
k < 1 or k > len(X) - window_size for the series X passed to that call. -/
theorem c5_k_bound_iff (D : DistModel) (det : LeftSTAMPi) (X : List ℚ)
    (t : ℤ) (hn : det.n_init_train = some t)
    (h3 : 3 ≤ det.window_size) (hle : det.window_size ≤ (X.length : ℤ))
    (hwt : det.window_size ≤ t) :
    ((det.fit X).2 = some PyError.valueError ↔
      (det.k < 1 ∨ det.k > (X.length : ℤ) - det.window_size)) ∧
    ((det.fitPredict D X).2 = Except.error PyError.valueError ↔
      (det.k < 1 ∨ det.k > (X.length : ℤ) - det.window_size)) := by
  constructor
  · rw [fit_snd_some_iff]
    rw [checkParams_valid_wt { det with n_init_train := some (X.length : ℤ) }
      X.length (X.length : ℤ) rfl h3 hle hle]
    by_cases hk : det.k < 1 ∨ det.k > (X.length : ℤ) - det.window_size
    · rw [if_pos hk]
      simp [hk]
    · rw [if_neg hk]
      simp [hk]
  · rw [fitPredict_snd_error_iff]
    rw [checkParams_valid_wt _ _ t hn h3 hle hwt]
    by_cases hk : det.k < 1 ∨ det.k > (X.length : ℤ) - det.window_size
    · rw [if_pos hk]
      simp [hk]
    · rw [if_neg hk]
      simp [hk]

/-- Witness for C5 at window_size = 3, n_init_train = 3, k = 0,
X of length 5: both calls raise, and indeed k = 0 < 1. -/
theorem c5_witness :
    ((⟨3, some 3, true, 2, 0, none⟩ : LeftSTAMPi).n_init_train = some 3 ∧
      (3 : ℤ) ≤ 3 ∧ (3 : ℤ) ≤ ((5 : ℕ) : ℤ) ∧ (3 : ℤ) ≤ 3) ∧
    (((LeftSTAMPi.fit ⟨3, some 3, true, 2, 0, none⟩ [1, 2, 3, 4, 5]).2
        = some PyError.valueError ↔
      ((0 : ℤ) < 1 ∨ (0 : ℤ) > ((5 : ℕ) : ℤ) - 3)) ∧
     ((LeftSTAMPi.fitPredict Dz ⟨3, some 3, true, 2, 0, none⟩
          [1, 2, 3, 4, 5]).2 = Except.error PyError.valueError ↔
      ((0 : ℤ) < 1 ∨ (0 : ℤ) > ((5 : ℕ) : ℤ) - 3))) :=
  ⟨⟨rfl, by decide, by decide, by decide⟩,
    c5_k_bound_iff Dz ⟨3, some 3, true, 2, 0, none⟩ [1, 2, 3, 4, 5] 3 rfl
      (by decide) (by decide) (by decide)⟩

/-- C6: with 3 ≤ window_size ≤ len(X) but window_size > n_init_train,
fit_predict raises a ValueError and performs no profile computation:
the returned state is exactly the input state (mp untouched). -/
theorem c6_w_gt_n_init_raises (D : DistModel) (det : LeftSTAMPi)
    (X : List ℚ) (t : ℤ) (hn : det.n_init_train = some t)
    (h3 : 3 ≤ det.window_size) (hle : det.window_size ≤ (X.length : ℤ))
    (hgt : t < det.window_size) :
    det.fitPredict D X = (det, Except.error PyError.valueError) :=
  fitPredict_of_error D det X _ (checkParams_w_gt_t det X.length t hn h3 hle hgt)

/-- Witness for C6 at window_size = 4, n_init_train = 3, X of length 6. -/
theorem c6_witness :
    ((⟨4, some 3, true, 2, 1, none⟩ : LeftSTAMPi).n_init_train = some 3 ∧
      (3 : ℤ) ≤ 4 ∧ (4 : ℤ) ≤ ((6 : ℕ) : ℤ) ∧ (3 : ℤ) < 4) ∧
    LeftSTAMPi.fitPredict Dz ⟨4, some 3, true, 2, 1, none⟩
        [1, 2, 3, 4, 5, 6]
      = (⟨4, some 3, true, 2, 1, none⟩, Except.error PyError.valueError) :=
  ⟨⟨rfl, by decide, by decide, by decide⟩,
    c6_w_gt_n_init_raises Dz ⟨4, some 3, true, 2, 1, none⟩
      [1, 2, 3, 4, 5, 6] 3 rfl (by decide) (by decide) (by decide)⟩

/-- C10: with n_init_train left at its default None and a window size
valid for the series (3 ≤ window_size ≤ len(X)), fit_predict raises a
TypeError (from comparing window_size with None), not a ValueError. -/
theorem c10_none_typeerror (D : DistModel) (det : LeftSTAMPi) (X : List ℚ)
    (hn : det.n_init_train = none)
    (h3 : 3 ≤ det.window_size) (hle : det.window_size ≤ (X.length : ℤ)) :
    (det.fitPredict D X).2 = Except.error PyError.typeError ∧
      (det.fitPredict D X).2 ≠ Except.error PyError.valueError := by
  have h := (fitPredict_snd_error_iff D det X PyError.typeError).mpr
    (checkParams_none det X.length hn h3 hle)
  exact ⟨h, by rw [h]; simp⟩

/-- Witness for C10: the all-default detector (window_size 3,
n_init_train None) on a series of length 10. -/
theorem c10_witness :
    ((⟨3, none, true, 2, 1, none⟩ : LeftSTAMPi).n_init_train = none ∧
      (3 : ℤ) ≤ 3 ∧ (3 : ℤ) ≤ ((10 : ℕ) : ℤ)) ∧
    ((LeftSTAMPi.fitPredict Dz ⟨3, none, true, 2, 1, none⟩ X0).2
        = Except.error PyError.typeError ∧
      (LeftSTAMPi.fitPredict Dz ⟨3, none, true, 2, 1, none⟩ X0).2
        ≠ Except.error PyError.valueError) :=
  ⟨⟨rfl, by decide, by decide⟩,
    c10_none_typeerror Dz ⟨3, none, true, 2, 1, none⟩ X0 rfl
      (by decide) (by decide)⟩

/-! ### List-level helper lemmas -/

theorem getD_map_range (f : ℕ → ℚ) (n i : ℕ) (h : i < n) :
    ((List.range n).map f).getD i 0 = f i := by
  simp [List.getD_eq_getElem?_getD, List.getElem?_map, List.getElem?_range, h]

theorem getD_of_length_le (l : List ℚ) (i : ℕ) (h : l.length ≤ i) :
    l.getD i 0 = 0 := by
  simp [List.getD_eq_getElem?_getD, List.getElem?_eq_none, h]

theorem getD_nonneg (l : List ℚ) (h : ∀ v ∈ l, 0 ≤ v) (i : ℕ) :
    0 ≤ l.getD i 0 := by
  by_cases hi : i < l.length
  · rw [List.getD_eq_getElem?_getD, List.getElem?_eq_getElem hi]
    exact h _ (List.getElem_mem hi)
  · rw [getD_of_length_le l i (by omega)]

theorem length_zeroUpTo (y : List ℚ) (t : ℕ) :
    (zeroUpTo y t).length = y.length := by
  simp [zeroUpTo]

theorem length_reverse_windowing (y : List ℚ) (w : ℕ) :
    (reverse_windowing y w).length = y.length + w - 1 := by
  simp [reverse_windowing]

theorem length_leftP (D : DistModel) (st : MPState) :
    (st.leftP D).length = st.series.length + 1 - st.m := by
  simp [MPState.leftP]

theorem length_scoresFrom (D : DistModel) (t : Option ℤ) (w : ℤ)
    (st : MPState) :
    (scoresFrom D t w st).length
      = (st.series.length + 1 - st.m) + w.toNat - 1 := by
  rw [scoresFrom, length_reverse_windowing, length_zeroUpTo, length_leftP]

theorem getD_zeroUpTo_zero (y : List ℚ) (tN j : ℕ)
    (h : j < tN ∨ y.length ≤ j) : (zeroUpTo y tN).getD j 0 = 0 := by
  rcases h with h | h
  · by_cases hj : j < y.length
    · rw [zeroUpTo, getD_map_range _ _ _ hj]
      simp [h]
    · apply getD_of_length_le
      rw [length_zeroUpTo]
      omega
  · apply getD_of_length_le
    rw [length_zeroUpTo]
    exact h

theorem reverse_windowing_getD_zero (y : List ℚ) (w i : ℕ)
    (hz : ∀ j, j ≤ i → y.getD j 0 = 0) :
    (reverse_windowing y w).getD i 0 = 0 := by
  by_cases hi : i < y.length + w - 1
  · rw [reverse_windowing, getD_map_range _ _ _ hi]
    have hsum : (((covering y.length w i)).map (fun j => y.getD j 0)).sum
        = 0 := by
      apply List.sum_eq_zero
      intro v hv
      rcases List.mem_map.mp hv with ⟨j, hj, rfl⟩
      have hj2 := (List.mem_filter.mp hj).2
      have hj3 : j ≤ i ∧ i < j + w := of_decide_eq_true hj2
      exact hz j hj3.1
    show (((covering y.length w i).map (fun j => y.getD j 0)).sum /
      (((covering y.length w i).length : ℕ) : ℚ)) = 0
    rw [hsum, zero_div]
  · apply getD_of_length_le
    rw [length_reverse_windowing]
    omega

theorem scoresFrom_getD_warmup (D : DistModel) (t w : ℤ) (st : MPState)
    (i : ℕ) (ht : 0 ≤ t) (hi : (i : ℤ) < t) :
    (scoresFrom D (some t) w st).getD i 0 = 0 := by
  rw [scoresFrom]
  apply reverse_windowing_getD_zero
  intro j hj
  apply getD_zeroUpTo_zero
  rw [pySlice, if_neg (by omega)]
  by_cases hjL : j < (st.leftP D).length
  · left
    omega
  · right
    omega

/-! ### Nonnegativity lemmas for the post-processing chain -/

theorem foldl_min_nonneg (l : List ℚ) (d : ℚ) (hd : 0 ≤ d)
    (hl : ∀ x ∈ l, 0 ≤ x) : 0 ≤ l.foldl min d := by
  induction l generalizing d with
  | nil => simpa using hd
  | cons x xs ih =>
      rw [List.foldl_cons]
      exact ih _ (le_min hd (hl x (by simp)))
        (fun y hy => hl y (List.mem_cons_of_mem x hy))

theorem leftNN_nonneg (D : DistModel) (X : List ℚ) (m : ℕ)
    (hd : ∀ a b, 0 ≤ D.dist a b) (hinf : 0 ≤ D.inf) (j : ℕ) :
    0 ≤ leftNN D X m j := by
  cases j with
  | zero => exact hinf
  | succ j =>
      rw [leftNN]
      apply foldl_min_nonneg _ _ (hd _ _)
      intro x hx
      rcases List.mem_map.mp hx with ⟨i, _, rfl⟩
      exact hd _ _

theorem leftP_nonneg (D : DistModel) (st : MPState)
    (hd : ∀ a b, 0 ≤ D.dist a b) (hinf : 0 ≤ D.inf) :
    ∀ v ∈ st.leftP D, 0 ≤ v := by
  intro v hv
  rcases List.mem_map.mp hv with ⟨j, _, rfl⟩
  exact leftNN_nonneg D st.series st.m hd hinf j

theorem zeroUpTo_nonneg (y : List ℚ) (t : ℕ) (h : ∀ v ∈ y, 0 ≤ v) :
    ∀ v ∈ zeroUpTo y t, 0 ≤ v := by
  intro v hv
  rcases List.mem_map.mp hv with ⟨j, _, rfl⟩
  by_cases hj : j < t
  · simp [hj]
  · simp only [hj, if_false]
    exact getD_nonneg y h j

theorem reverse_windowing_nonneg (y : List ℚ) (w : ℕ)
    (h : ∀ v ∈ y, 0 ≤ v) : ∀ v ∈ reverse_windowing y w, 0 ≤ v := by
  intro v hv
  rcases List.mem_map.mp hv with ⟨i, _, rfl⟩
  apply div_nonneg
  · apply List.sum_nonneg
    intro x hx
    rcases List.mem_map.mp hx with ⟨j, _, rfl⟩
    exact getD_nonneg y h j
  · exact_mod_cast Nat.zero_le _

theorem scoresFrom_nonneg (D : DistModel) (t : Option ℤ) (w : ℤ)
    (st : MPState) (hd : ∀ a b, 0 ≤ D.dist a b) (hinf : 0 ≤ D.inf) :
    ∀ v ∈ scoresFrom D t w st, 0 ≤ v := by
  rw [scoresFrom]
  exact reverse_windowing_nonneg _ _
    (zeroUpTo_nonneg _ _ (leftP_nonneg D st hd hinf))

/-! ### Shape of the successful calls -/

theorem foldl_update_series (l : List ℚ) : ∀ st : MPState,
    l.foldl MPState.update st = ⟨st.series ++ l, st.m⟩ := by
  induction l with
  | nil => intro st; simp
  | cons x xs ih =>
      intro st
      rw [List.foldl_cons, ih]
      simp [MPState.update]

theorem fitPredict_ok_full (D : DistModel) (det : LeftSTAMPi) (X : List ℚ)
    (h : checkParams det X.length = .ok ()) :
    det.fitPredict D X = ({ det with mp := some ⟨X, det.window_size.toNat⟩ },
      .ok (scoresFrom D det.n_init_train det.window_size
        ⟨X, det.window_size.toNat⟩)) := by
  unfold LeftSTAMPi.fitPredict
  rw [h]
  simp only [foldl_update_series, List.take_append_drop]

theorem fitPredict_ok_of_snd (D : DistModel) (det : LeftSTAMPi)
    (X : List ℚ) (s : List ℚ) (hs : (det.fitPredict D X).2 = .ok s) :
    checkParams det X.length = .ok () := by
  cases h : checkParams det X.length with
  | error e =>
      rw [fitPredict_of_error D det X e h] at hs
      simp at hs
  | ok u => cases u; rfl

theorem fitPredict_scores (D : DistModel) (det : LeftSTAMPi)
    (X : List ℚ) (s : List ℚ) (hs : (det.fitPredict D X).2 = .ok s) :
    s = scoresFrom D det.n_init_train det.window_size
      ⟨X, det.window_size.toNat⟩ := by
  have h := fitPredict_ok_of_snd D det X s hs
  rw [fitPredict_ok_full D det X h] at hs
  exact (Except.ok.inj hs).symm

theorem predict_some (D : DistModel) (det : LeftSTAMPi) (st : MPState)
    (x : ℚ) (hmp : det.mp = some st) :
    det.predict D x = ({ det with mp := some (st.update x) },
      scoresFrom D det.n_init_train det.window_size (st.update x)) := by
  unfold LeftSTAMPi.predict
  rw [hmp]

/-! ### C3, C7, C2: properties of the returned score arrays -/

/-- C3: with valid parameters (n_init_train = t, fit_predict succeeding;
mp present for the stream case), the first t entries of the score array
returned by fit_predict, and of the one returned by a predict call, are
all exactly 0. -/
theorem c3_warmup_scores_zero (D : DistModel) (det : LeftSTAMPi)
    (X : List ℚ) (x : ℚ) (s : List ℚ) (t : ℤ) (i : ℕ) (st : MPState)
    (hn : det.n_init_train = some t)
    (hs : (det.fitPredict D X).2 = .ok s)
    (hmp : det.mp = some st)
    (hi : (i : ℤ) < t) :
    s.getD i 0 = 0 ∧ ((det.predict D x).2).getD i 0 = 0 := by
  have hck := fitPredict_ok_of_snd D det X s hs
  obtain ⟨h3, hle, t2, hn2, hwt, -, -⟩ := checkParams_ok_bounds det X.length hck
  have ht : 0 ≤ t := by
    rw [hn] at hn2
    have : t = t2 := Option.some.inj hn2
    omega
  constructor
  · rw [fitPredict_scores D det X s hs, hn]
    exact scoresFrom_getD_warmup D t det.window_size _ i ht hi
  · rw [predict_some D det st x hmp]
    show (scoresFrom D det.n_init_train det.window_size (st.update x)).getD
      i 0 = 0
    rw [hn]
    exact scoresFrom_getD_warmup D t det.window_size _ i ht hi

/-- Witness for C3: window_size 3, n_init_train 4 on a series of
length 6; entry 2 of both score arrays is 0. -/
theorem c3_witness :
    ((⟨3, some 4, true, 2, 1, some ⟨[1, 2, 3, 4], 3⟩⟩ :
        LeftSTAMPi).n_init_train = some 4 ∧
      (LeftSTAMPi.fitPredict Dz
          ⟨3, some 4, true, 2, 1, some ⟨[1, 2, 3, 4], 3⟩⟩
          [1, 2, 3, 4, 5, 6]).2 = .ok [0, 0, 0, 0, 0, 0] ∧
      (⟨3, some 4, true, 2, 1, some ⟨[1, 2, 3, 4], 3⟩⟩ :
        LeftSTAMPi).mp = some ⟨[1, 2, 3, 4], 3⟩ ∧
      ((2 : ℕ) : ℤ) < 4) ∧
    (([0, 0, 0, 0, 0, 0] : List ℚ).getD 2 0 = 0 ∧
      ((LeftSTAMPi.predict Dz
          ⟨3, some 4, true, 2, 1, some ⟨[1, 2, 3, 4], 3⟩⟩ 5).2).getD 2 0
        = 0) :=
  ⟨⟨rfl, by with_unfolding_all rfl, rfl, by decide⟩,
    c3_warmup_scores_zero Dz ⟨3, some 4, true, 2, 1, some ⟨[1, 2, 3, 4], 3⟩⟩
      [1, 2, 3, 4, 5, 6] 5 [0, 0, 0, 0, 0, 0] 4 2 ⟨[1, 2, 3, 4], 3⟩ rfl
      (by with_unfolding_all rfl) rfl (by decide)⟩

/-- C7: if the engine model yields non-negative distances (and a
non-negative no-neighbor value), every entry of the score array returned
by fit_predict, and of the one returned by predict, is non-negative. -/
theorem c7_scores_nonneg (D : DistModel) (det : LeftSTAMPi) (X : List ℚ)
    (x : ℚ) (s : List ℚ) (i : ℕ)
    (hd : ∀ a b, 0 ≤ D.dist a b) (hinf : 0 ≤ D.inf)
    (hs : (det.fitPredict D X).2 = .ok s) :
    0 ≤ s.getD i 0 ∧ 0 ≤ ((det.predict D x).2).getD i 0 := by
  constructor
  · rw [fitPredict_scores D det X s hs]
    exact getD_nonneg _ (scoresFrom_nonneg D _ _ _ hd hinf) i
  · cases hmp : det.mp with
    | none =>
        unfold LeftSTAMPi.predict
        rw [hmp]
        simp
    | some st =>
        rw [predict_some D det st x hmp]
        show 0 ≤ (scoresFrom D det.n_init_train det.window_size
          (st.update x)).getD i 0
        exact getD_nonneg _ (scoresFrom_nonneg D _ _ _ hd hinf) i

/-- Witness for C7: the L1 engine model on a length-6 series; entry 4 of
both score arrays is non-negative. -/
theorem c7_witness :
    ((∀ a b, 0 ≤ Dabs.dist a b) ∧ (0 : ℚ) ≤ Dabs.inf ∧
      (LeftSTAMPi.fitPredict Dabs
          ⟨3, some 4, true, 2, 1, some ⟨[1, 2, 3, 4], 3⟩⟩
          [1, 2, 3, 4, 5, 6]).2 = .ok [0, 0, 0, 0, 0, 0]) ∧
    ((0 : ℚ) ≤ ([0, 0, 0, 0, 0, 0] : List ℚ).getD 4 0 ∧
      (0 : ℚ) ≤ ((LeftSTAMPi.predict Dabs
        ⟨3, some 4, true, 2, 1, some ⟨[1, 2, 3, 4], 3⟩⟩ 5).2).getD 4 0) :=
  ⟨⟨fun a b => List.sum_nonneg (fun q hq => by
      rcases List.mem_map.mp hq with ⟨p, -, rfl⟩
      exact abs_nonneg _), by decide, by with_unfolding_all rfl⟩,
    c7_scores_nonneg Dabs ⟨3, some 4, true, 2, 1, some ⟨[1, 2, 3, 4], 3⟩⟩
      [1, 2, 3, 4, 5, 6] 5 [0, 0, 0, 0, 0, 0] 4
      (fun a b => List.sum_nonneg (fun q hq => by
        rcases List.mem_map.mp hq with ⟨p, -, rfl⟩
        exact abs_nonneg _)) (by decide) (by with_unfolding_all rfl)⟩

/-- C2 counterexample: in stream mode, predict does NOT return an array
of the length of the per-call input.  After fit on 4 points
(window_size 3, so k = 1 ≤ 4 - 3 and fit succeeds), a predict call whose
input array has length 1 returns an array of length 5. -/
theorem c2_counterexample :
    (LeftSTAMPi.fit ⟨3, some 4, true, 2, 1, none⟩ [1, 2, 3, 4]).2 = none ∧
    (((LeftSTAMPi.fit ⟨3, some 4, true, 2, 1, none⟩
        [1, 2, 3, 4]).1.predict Dabs 5).2).length = 5 ∧
    (((LeftSTAMPi.fit ⟨3, some 4, true, 2, 1, none⟩
        [1, 2, 3, 4]).1.predict Dabs 5).2).length ≠ 1 := by
  refine ⟨by decide, ?_, ?_⟩ <;> decide

/-- C2 as amended: the array returned by a successful fit_predict has
the length of the input series, and the array returned by predict in
stream mode has the length of the whole series processed so far
(initial training plus streamed points), not the length of the per-call
input. -/
theorem c2_output_length (D : DistModel) (det : LeftSTAMPi) (X : List ℚ)
    (x : ℚ) (s : List ℚ) (st : MPState)
    (hs : (det.fitPredict D X).2 = .ok s)
    (hmp : det.mp = some st)
    (hm : st.m = det.window_size.toNat)
    (hml : st.m ≤ st.series.length + 1)
    (hm1 : 1 ≤ st.m) :
    s.length = X.length ∧
      ((det.predict D x).2).length = st.series.length + 1 := by
  have hck := fitPredict_ok_of_snd D det X s hs
  obtain ⟨h3, hle, -⟩ := checkParams_ok_bounds det X.length hck
  constructor
  · rw [fitPredict_scores D det X s hs, length_scoresFrom]
    show X.length + 1 - det.window_size.toNat + det.window_size.toNat - 1
      = X.length
    omega
  · rw [predict_some D det st x hmp]
    show (scoresFrom D det.n_init_train det.window_size
      (st.update x)).length = st.series.length + 1
    rw [length_scoresFrom]
    show (st.series ++ [x]).length + 1 - st.m + det.window_size.toNat - 1
      = st.series.length + 1
    simp only [List.length_append, List.length_singleton]
    omega

/-- Witness for C2 as amended, at the inputs of the counterexample:
fit_predict on 6 points returns 6 scores, and predict after 4 points
returns 5 scores. -/
theorem c2_witness :
    ((LeftSTAMPi.fitPredict Dz
        ⟨3, some 4, true, 2, 1, some ⟨[1, 2, 3, 4], 3⟩⟩
        [1, 2, 3, 4, 5, 6]).2 = .ok [0, 0, 0, 0, 0, 0] ∧
      (⟨3, some 4, true, 2, 1, some ⟨[1, 2, 3, 4], 3⟩⟩ :
        LeftSTAMPi).mp = some ⟨[1, 2, 3, 4], 3⟩ ∧
      (⟨[1, 2, 3, 4], 3⟩ : MPState).m = (3 : ℤ).toNat ∧
      (⟨[1, 2, 3, 4], 3⟩ : MPState).m ≤ 4 + 1 ∧
      1 ≤ (⟨[1, 2, 3, 4], 3⟩ : MPState).m) ∧
    (([0, 0, 0, 0, 0, 0] : List ℚ).length = 6 ∧
      ((LeftSTAMPi.predict Dz
        ⟨3, some 4, true, 2, 1, some ⟨[1, 2, 3, 4], 3⟩⟩ 5).2).length
        = 4 + 1) :=
  ⟨⟨by with_unfolding_all rfl, rfl, by decide, by decide, by decide⟩,
    c2_output_length Dz ⟨3, some 4, true, 2, 1, some ⟨[1, 2, 3, 4], 3⟩⟩
      [1, 2, 3, 4, 5, 6] 5 [0, 0, 0, 0, 0, 0] ⟨[1, 2, 3, 4], 3⟩
      (by with_unfolding_all rfl) rfl (by decide) (by decide) (by decide)⟩

/-! ### C8, C9: state mutation around validation -/

/-- C8 counterexample: fit mutates the detector before raising.  With
n_init_train = 5 at construction, fit on a 2-point series raises a
ValueError, but afterwards n_init_train is 2, not the 5 it held before
the call. -/
theorem c8_counterexample :
    (LeftSTAMPi.fit ⟨3, some 5, true, 2, 1, none⟩ [0, 0]).2
      = some PyError.valueError ∧
    (LeftSTAMPi.fit ⟨3, some 5, true, 2, 1, none⟩ [0, 0]).1.n_init_train
      ≠ (⟨3, some 5, true, 2, 1, none⟩ : LeftSTAMPi).n_init_train := by
  refine ⟨by decide, ?_⟩
  decide

/-- C8 as amended: whenever fit_predict raises a validation error the
detector state is exactly as before the call; whenever fit raises one,
the matrix-profile state and all other fields are as before, but
n_init_train has already been overwritten with len(X).  The two halves
are independent: each call's state conclusion follows from that call
raising, whatever the other call would do on the same input. -/
theorem c8_state_on_error (D : DistModel) (det : LeftSTAMPi) (X : List ℚ)
    (e1 : PyError) (e2 : PyError) :
    ((det.fitPredict D X).2 = .error e1 → (det.fitPredict D X).1 = det) ∧
      ((det.fit X).2 = some e2 →
        (det.fit X).1 = { det with n_init_train := some (X.length : ℤ) }) := by
  constructor
  · intro h1
    cases hc : checkParams det X.length with
    | error e =>
        rw [fitPredict_of_error D det X e hc]
    | ok u =>
        cases u
        rw [fitPredict_ok_full D det X hc] at h1
        simp at h1
  · intro h2
    cases hc : checkParams { det with n_init_train := some (X.length : ℤ) }
        X.length with
    | error e =>
        rw [fit_of_error det X e hc]
    | ok u =>
        cases u
        rw [fit_of_ok det X hc] at h2
        simp at h2

/-- Witness for C8 as amended, with the two halves at independent
inputs: fit_predict raises (window_size 3 > n_init_train 2) on a
length-10 series where fit would succeed, and its state is preserved;
fit raises on a 2-point series and ends with n_init_train = 2. -/
theorem c8_witness :
    ((LeftSTAMPi.fitPredict Dz ⟨3, some 2, true, 2, 1, none⟩ X0).2
        = .error PyError.valueError ∧
      (LeftSTAMPi.fit ⟨3, some 5, true, 2, 1, none⟩ [0, 0]).2
        = some PyError.valueError) ∧
    ((LeftSTAMPi.fitPredict Dz ⟨3, some 2, true, 2, 1, none⟩ X0).1
        = ⟨3, some 2, true, 2, 1, none⟩ ∧
      (LeftSTAMPi.fit ⟨3, some 5, true, 2, 1, none⟩ [0, 0]).1
        = ⟨3, some 2, true, 2, 1, none⟩) :=
  ⟨⟨by decide, by decide⟩,
    (c8_state_on_error Dz ⟨3, some 2, true, 2, 1, none⟩ X0
      PyError.valueError PyError.valueError).1 (by decide),
    (c8_state_on_error Dz ⟨3, some 5, true, 2, 1, none⟩ [0, 0]
      PyError.valueError PyError.valueError).2 (by decide)⟩

/-- C9: fit overwrites n_init_train with len(X) (whatever was supplied
at construction), so with a window size valid for X the k bound is
checked against len(X) - window_size of the training segment alone, and
after a successful fit the first len(X) entries of any subsequent
predict output are 0. -/
theorem c9_fit_overwrites_n_init_train (D : DistModel) (det : LeftSTAMPi)
    (X : List ℚ) (x : ℚ) (i : ℕ)
    (h3 : 3 ≤ det.window_size) (hle : det.window_size ≤ (X.length : ℤ))
    (hi : (i : ℤ) < (X.length : ℤ)) :
    (det.fit X).1.n_init_train = some (X.length : ℤ) ∧
      ((det.fit X).2 = some PyError.valueError ↔
        (det.k < 1 ∨ det.k > (X.length : ℤ) - det.window_size)) ∧
      ((det.fit X).2 = none →
        (((det.fit X).1.predict D x).2).getD i 0 = 0) := by
  refine ⟨?_, ?_, ?_⟩
  · cases hc : checkParams { det with n_init_train := some (X.length : ℤ) }
        X.length with
    | error e => rw [fit_of_error det X e hc]
    | ok u => cases u; rw [fit_of_ok det X hc]
  · rw [fit_snd_some_iff]
    rw [checkParams_valid_wt { det with n_init_train := some (X.length : ℤ) }
      X.length (X.length : ℤ) rfl h3 hle hle]
    by_cases hk : det.k < 1 ∨ det.k > (X.length : ℤ) - det.window_size
    · rw [if_pos hk]
      simp [hk]
    · rw [if_neg hk]
      simp [hk]
  · intro hn
    cases hc : checkParams { det with n_init_train := some (X.length : ℤ) }
        X.length with
    | error e =>
        rw [fit_of_error det X e hc] at hn
        simp at hn
    | ok u =>
        cases u
        rw [fit_of_ok det X hc]
        rw [predict_some D _ ⟨X, det.window_size.toNat⟩ x rfl]
        show (scoresFrom D (some (X.length : ℤ)) det.window_size
          ((⟨X, det.window_size.toNat⟩ : MPState).update x)).getD i 0 = 0
        exact scoresFrom_getD_warmup D _ _ _ i (by omega) hi

/-- Witness for C9: n_init_train 99 at construction, fit on 5 points
overwrites it with 5; fit succeeds (k = 1 ≤ 5 - 3) and entry 4 of a
subsequent predict output is 0. -/
theorem c9_witness :
    ((3 : ℤ) ≤ 3 ∧ (3 : ℤ) ≤ ((5 : ℕ) : ℤ) ∧ ((4 : ℕ) : ℤ) < ((5 : ℕ) : ℤ)) ∧
    ((LeftSTAMPi.fit ⟨3, some 99, true, 2, 1, none⟩
        [1, 2, 3, 4, 5]).1.n_init_train = some ((5 : ℕ) : ℤ) ∧
      ((LeftSTAMPi.fit ⟨3, some 99, true, 2, 1, none⟩ [1, 2, 3, 4, 5]).2
          = some PyError.valueError ↔
        ((1 : ℤ) < 1 ∨ (1 : ℤ) > ((5 : ℕ) : ℤ) - 3)) ∧
      ((LeftSTAMPi.fit ⟨3, some 99, true, 2, 1, none⟩ [1, 2, 3, 4, 5]).2
          = none →
        (((LeftSTAMPi.fit ⟨3, some 99, true, 2, 1, none⟩
          [1, 2, 3, 4, 5]).1.predict Dabs 6).2).getD 4 0 = 0)) :=
  ⟨⟨by decide, by decide, by decide⟩,
    c9_fit_overwrites_n_init_train Dabs ⟨3, some 99, true, 2, 1, none⟩
      [1, 2, 3, 4, 5] 6 4 (by decide) (by decide) (by decide)⟩

/-! ### C1: batch versus stream processing -/

theorem streamRun_of_mp (D : DistModel) (pts : List ℚ) :
    ∀ (det : LeftSTAMPi) (st : MPState) (s0 : List ℚ),
      det.mp = some st → pts ≠ [] →
      pts.foldl (fun acc x => LeftSTAMPi.predict D acc.1 x) (det, s0) =
        ({ det with mp := some ⟨st.series ++ pts, st.m⟩ },
          scoresFrom D det.n_init_train det.window_size
            ⟨st.series ++ pts, st.m⟩) := by
  induction pts with
  | nil => intro det st s0 _ hne; exact absurd rfl hne
  | cons x rest ih =>
      intro det st s0 hmp _
      rw [List.foldl_cons]
      rw [(predict_some D det st x hmp :
        LeftSTAMPi.predict D (det, s0).1 x = _)]
      by_cases hr : rest = []
      · subst hr
        rw [List.foldl_nil]
        simp [MPState.update]
      · rw [ih { det with mp := some (st.update x) } (st.update x) _ rfl hr]
        simp [MPState.update, List.append_assoc]

theorem streamRun_spec (D : DistModel) (det : LeftSTAMPi) (st : MPState)
    (pts : List ℚ) (hmp : det.mp = some st) (hne : pts ≠ []) :
    streamRun D det pts =
      ({ det with mp := some ⟨st.series ++ pts, st.m⟩ },
        scoresFrom D det.n_init_train det.window_size
          ⟨st.series ++ pts, st.m⟩) := by
  rw [streamRun]
  exact streamRun_of_mp D pts det st [] hmp hne

set_option maxRecDepth 100000 in
/-- C1 counterexample: the parameters window_size 3, n_init_train 3,
k = 1 on a series of length 10 satisfy all the bounds the claim
quantifies over (3 ≤ 3 ≤ 10, 3 ≤ 3 ≤ 10, 1 ≤ 1 ≤ 10 - 3), and batch
fit_predict returns a full score array, but stream mode cannot run at
all: its initial fit on X[:3] raises a ValueError, because fit checks
the k bound against the 3-point training segment (1 > 3 - 3).  This is
the very configuration of the class docstring examples, which show both
modes returning identical arrays. -/
theorem c1_counterexample :
    (LeftSTAMPi.fitPredict Dabs ⟨3, some 3, true, 2, 1, none⟩ X0).2
      = .ok [0, 0, 0, 2, 4, 17/3, 6, 20/3, 15/2, 8] ∧
    (LeftSTAMPi.fit ⟨3, some 3, true, 2, 1, none⟩ (X0.take 3)).2
      = some PyError.valueError :=
  ⟨by with_unfolding_all rfl, by decide⟩

/-- C1 as amended: under the stated bounds strengthened by
k ≤ n_init_train - window_size (which the stream-mode fit enforces) and
with at least one streamed point, stream mode (fit on X[:t], then one
predict call per remaining point) succeeds and the array returned by
the last predict call equals the array returned by a single batch
fit_predict over all of X. -/
theorem c1_stream_equals_batch (D : DistModel) (det : LeftSTAMPi)
    (X : List ℚ) (t : ℤ)
    (hn : det.n_init_train = some t)
    (h3 : 3 ≤ det.window_size)
    (hwt : det.window_size ≤ t)
    (htn : t < (X.length : ℤ))
    (hk1 : 1 ≤ det.k)
    (hkt : det.k ≤ t - det.window_size) :
    (det.fit (X.take t.toNat)).2 = none ∧
      (det.fitPredict D X).2 =
        Except.ok ((streamRun D (det.fit (X.take t.toNat)).1
          (X.drop t.toNat)).2) := by
  have ht0 : (0 : ℤ) ≤ t := by omega
  have htle : t.toNat ≤ X.length := by omega
  have hlen : (X.take t.toNat).length = t.toNat := by
    rw [List.length_take]
    omega
  have hck : checkParams
      { det with n_init_train := some ((X.take t.toNat).length : ℤ) }
      (X.take t.toNat).length = .ok () := by
    rw [hlen]
    exact checkParams_ok
      { det with n_init_train := some ((t.toNat : ℕ) : ℤ) } t.toNat
      ((t.toNat : ℕ) : ℤ) rfl h3
      (show det.window_size ≤ ((t.toNat : ℕ) : ℤ) by omega)
      (show det.window_size ≤ ((t.toNat : ℕ) : ℤ) by omega) hk1
      (show det.k ≤ ((t.toNat : ℕ) : ℤ) - det.window_size by omega)
  have hfit := fit_of_ok det (X.take t.toNat) hck
  refine ⟨by rw [hfit], ?_⟩
  have hckX : checkParams det X.length = .ok () :=
    checkParams_ok det X.length t hn h3 (by omega) hwt hk1 (by omega)
  rw [fitPredict_ok_full D det X hckX, hfit]
  have hdropne : X.drop t.toNat ≠ [] := by
    intro hc
    have hl := congrArg List.length hc
    rw [List.length_drop] at hl
    simp only [List.length_nil] at hl
    omega
  rw [streamRun_spec D _ ⟨X.take t.toNat, det.window_size.toNat⟩
    (X.drop t.toNat) rfl hdropne]
  have hnn : ((X.take t.toNat).length : ℤ) = t := by
    rw [hlen]
    omega
  simp only [List.take_append_drop, hnn, hn]

/-- Witness for C1 as amended: window_size 3, n_init_train 5, k = 1 on
the length-10 series X0 (so k = 1 ≤ 5 - 3): stream fit succeeds and the
last predict call returns the batch scores. -/
theorem c1_witness :
    ((⟨3, some 5, true, 2, 1, none⟩ : LeftSTAMPi).n_init_train = some 5 ∧
      (3 : ℤ) ≤ 3 ∧ (3 : ℤ) ≤ 5 ∧ (5 : ℤ) < ((10 : ℕ) : ℤ) ∧
      (1 : ℤ) ≤ 1 ∧ (1 : ℤ) ≤ 5 - 3) ∧
    ((LeftSTAMPi.fit ⟨3, some 5, true, 2, 1, none⟩
        (X0.take (5 : ℤ).toNat)).2 = none ∧
      (LeftSTAMPi.fitPredict Dabs ⟨3, some 5, true, 2, 1, none⟩ X0).2 =
        Except.ok ((streamRun Dabs
          (LeftSTAMPi.fit ⟨3, some 5, true, 2, 1, none⟩
            (X0.take (5 : ℤ).toNat)).1 (X0.drop (5 : ℤ).toNat)).2)) :=
  ⟨⟨rfl, by decide, by decide, by decide, by decide, by decide⟩,
    c1_stream_equals_batch Dabs ⟨3, some 5, true, 2, 1, none⟩ X0 5 rfl
      (by decide) (by decide) (by decide) (by decide) (by decide)⟩

end LeftStampi
